import Mathlib

/-!
Shallow embedding of the phone-OTP authentication core of the
owners-hub-app repository (React + Firebase client, Supabase edge
functions), together with theorems settling the frozen claims about it.

JavaScript strings are modelled as `List Char`; JS falsiness of a string
is emptiness; optional / possibly-`undefined` fields are `Option`s.
-/

deriving instance DecidableEq for Except

namespace OwnersHub

/-- JavaScript string, modelled as a list of characters. -/
abbrev JStr := List Char

/-- The characters removed by JavaScript `String.prototype.trim`
(the common whitespace characters). -/
def isJsWs (c : Char) : Bool :=
  c = ' ' || c = '\t' || c = '\n' || c = '\r' || c = '\x0b' || c = '\x0c'

/-- JavaScript `String.prototype.trim`: strip whitespace at both ends. -/
def jsTrim (s : JStr) : JStr :=
  ((s.dropWhile isJsWs).reverse.dropWhile isJsWs).reverse

/-- JavaScript `s.startsWith('+')`. -/
def startsWithPlus : JStr → Bool
  | [] => false
  | c :: _ => c = '+'

/-- JavaScript `s.replace(/\D/g, '')` (equivalently `replace(/[^\d]/g, '')`):
keep only the decimal digits. -/
def stripNonDigits (s : JStr) : JStr := s.filter Char.isDigit

/-- Whether `pat` occurs at the very front of `s` (helper for substring
search, i.e. JavaScript `String.prototype.includes`). -/
def leadsWith : JStr → JStr → Bool
  | [], _ => true
  | _ :: _, [] => false
  | p :: ps, c :: cs => p = c && leadsWith ps cs

/-- JavaScript `s.includes(pat)`: `pat` occurs somewhere in `s`. -/
def hasSub (pat : JStr) : JStr → Bool
  | [] => leadsWith pat []
  | c :: cs => leadsWith pat (c :: cs) || hasSub pat cs

/-- Test for a regular expression of the shape `/pat\d+/` : some occurrence
of `pat` in `s` is immediately followed by a decimal digit. -/
def hasSubThenDigit (pat : JStr) : JStr → Bool
  | [] => false
  | c :: cs => (leadsWith pat (c :: cs) && ((cs.drop (pat.length - 1)).headD ' ').isDigit)
      || hasSubThenDigit pat cs

/-- JavaScript `s.toLowerCase()` (ASCII relevant here). -/
def toLowerStr (s : JStr) : JStr := s.map Char.toLower

/-- JavaScript `a || b` on an optional string `a` (falsy when absent or
empty) with string fallback `b`. -/
def jsOrStr (a : Option JStr) (b : JStr) : JStr :=
  match a with
  | some s => if s = [] then b else s
  | none => b

/-! ## Phone-number normalization (three sites in the source)

`formatToE164` is `src/pages/Auth.tsx` lines 52-58;
`normalizePhone` is `src/components/PhoneOTPAuth.tsx` lines 74-81
(parameterized by the component's `defaultCountryCode` prop, default `'+91'`);
`sendOTPFormat` is the inline formatting of `sendOTP` in
`src/context/AuthContext.tsx` lines 290-292;
`ensurePlus` is the formatting used by the two Supabase edge functions. -/

/-- Function `formatToE164` from `Auth.tsx`: empty stays empty; strip non-digits;
a `+`-input keeps just `+` and its digits; otherwise prepend `+91`. -/
def formatToE164 (phone : JStr) : JStr :=
  if phone = [] then []
  else
    let cleaned := stripNonDigits phone
    if startsWithPlus phone then '+' :: cleaned
    else '+' :: '9' :: '1' :: cleaned

/-- Function `normalizePhone` from `PhoneOTPAuth.tsx`: trim; empty stays empty;
a `+`-input is returned as-is; otherwise the default country code is
prepended to the digits of the input. -/
def normalizePhone (defaultCountryCode : JStr) (value : JStr) : JStr :=
  let trimmed := jsTrim value
  if trimmed = [] then trimmed
  else if startsWithPlus trimmed then trimmed
  else defaultCountryCode ++ stripNonDigits trimmed

/-- Function `isE164` from `PhoneOTPAuth.tsx`: the regular expression
`/^\+[1-9]\d\x7b1,14\x7d$/`. -/
def isE164 (s : JStr) : Bool :=
  match s with
  | c0 :: c1 :: rest =>
      c0 = '+' && ('1' ≤ c1 && c1 ≤ '9') && rest.all Char.isDigit
        && 1 ≤ rest.length && rest.length ≤ 14
  | _ => false

/-- The inline formatting at the top of `sendOTP` in `AuthContext.tsx`:
a `+`-input is kept; otherwise `+` is prepended to the digits (note: no
country code here). -/
def sendOTPFormat (phoneNumber : JStr) : JStr :=
  if startsWithPlus phoneNumber then phoneNumber
  else '+' :: stripNonDigits phoneNumber

/-- The formatting in the `send-otp` / `verify-otp` edge functions:
`phoneNumber.startsWith('+') ? phoneNumber : '+' + phoneNumber`. -/
def ensurePlus (phoneNumber : JStr) : JStr :=
  if startsWithPlus phoneNumber then phoneNumber else '+' :: phoneNumber

/-! ## Runtime environment detection and provider selection

`isRunningInNativeWebView` is `AuthContext.tsx` lines 205-229; the
provider dispatch structure it feeds is the body of `sendOTP`
(lines 300-372), and `getOrCreateRecaptchaVerifier` (lines 237-286)
carries the guard that refuses the interactive reCAPTCHA flow inside a
native WebView (lines 250-255). -/

/-- Runtime environment visible to `isRunningInNativeWebView`:
whether the Capacitor bridge is present with a callable `getPlatform`
and a truthy `isNative` flag, the platform string it reports, and the
browser user-agent string. -/
structure JsEnv where
  capacitorNative : Bool
  platform : JStr
  userAgent : JStr

/-- Function `isRunningInNativeWebView` from `AuthContext.tsx`: prefer the
Capacitor platform report; otherwise fall back to user-agent
heuristics for Android and iOS WebViews. -/
def isRunningInNativeWebView (env : JsEnv) : Bool :=
  if env.capacitorNative then
    env.platform = "android".data || env.platform = "ios".data
  else
    let ua := toLowerStr env.userAgent
    let androidHit := hasSub "android".data ua
      && (hasSub "; wv".data ua || hasSubThenDigit "version/".data ua
          || !hasSubThenDigit "chrome/".data ua)
    let iosHit := (hasSub "iphone".data ua || hasSub "ipad".data ua
          || hasSub "ipod".data ua)
      && (!hasSub "safari".data ua || hasSub "version/".data ua)
    androidHit || iosHit

/-- The three challenge-provider mechanisms `sendOTP` can dispatch to. -/
inductive ProviderKind
  | interactiveWeb
  | nativePlugin
  | serverDispatch
deriving DecidableEq

/-- Provider selection as structured in `sendOTP` (`AuthContext.tsx`
lines 300-372): inside a native WebView, probe the native plugin and use
it when available, else fall back to the server-side SMS flow; outside a
native WebView, use the interactive web (reCAPTCHA) flow. -/
def selectProvider (env : JsEnv) (pluginAvailable : Bool) : ProviderKind :=
  if isRunningInNativeWebView env then
    if pluginAvailable then .nativePlugin else .serverDispatch
  else .interactiveWeb

/-- Possible outcomes of `getOrCreateRecaptchaVerifier`. -/
inductive RecaptchaInit
  | reusedExisting
  | noBrowserEnv
  | nativeWebViewRejected
  | created
deriving DecidableEq

/-- Function `getOrCreateRecaptchaVerifier` from `AuthContext.tsx`: reuse a cached
verifier; require a DOM; refuse to create a verifier inside a native
WebView (throwing); otherwise create one. -/
def getOrCreateRecaptchaVerifier (cached : Bool) (hasDom : Bool)
    (env : JsEnv) : RecaptchaInit :=
  if cached then .reusedExisting
  else if !hasDom then .noBrowserEnv
  else if isRunningInNativeWebView env then .nativeWebViewRejected
  else .created

/-! ## Single-flight guard on sendOTP

The event-loop semantics of `sendOTP` (`AuthContext.tsx` lines 289-409)
is modelled as a sequence of atomic segments separated by suspension
points. The first segment (format the number, test `otpSendingRef`,
throw or set it — lines 290-298) contains no `await`, so it executes
atomically. The provider call is the next segment, and the `finally`
block that clears the flag (lines 406-408) is the last. -/

/-- One atomic segment of a `sendOTP` invocation: the synchronous
check-and-set of `otpSendingRef`, the awaited provider call, and the
`finally` release of the flag. -/
inductive SendSeg
  | acquire
  | provider
  | release
deriving DecidableEq

/-- State shared by all `sendOTP` invocations of one client:
the `otpSendingRef` flag and a count of provider calls made. -/
structure OtpGlobal where
  otpSending : Bool
  providerCalls : Nat
deriving DecidableEq

/-- The settled result of a `sendOTP` invocation: the promise resolved,
or rejected with an error message. -/
inductive SendResult
  | resolved
  | rejected (msg : JStr)
deriving DecidableEq

/-- The progress of one `sendOTP` invocation: segments still to run and
its settled result, if any. -/
structure OtpCall where
  remaining : List SendSeg
  result : Option SendResult
deriving DecidableEq

/-- The segments of one (web-path) `sendOTP` invocation, in order.
The guard acquisition is the first segment: it runs before the first
suspension point. -/
def sendSegments : List SendSeg := [.acquire, .provider, .release]

/-- A fresh `sendOTP` invocation. -/
def newSendCall : OtpCall := ⟨sendSegments, none⟩

/-- Initial shared state: flag clear, no provider calls yet. -/
def otpGlobal0 : OtpGlobal := ⟨false, 0⟩

/-- Run the next atomic segment of one invocation. `acquire` rejects
with the ConcurrentRequest message when the flag is already set,
otherwise sets it synchronously; `provider` performs the provider call;
`release` clears the flag and resolves the invocation. -/
def stepSendCall (g : OtpGlobal) (c : OtpCall) : OtpGlobal × OtpCall :=
  if c.result.isSome then (g, c)
  else
    match c.remaining with
    | [] => (g, c)
    | .acquire :: rest =>
        if g.otpSending then
          (g, ⟨[], some (.rejected "OTP request already in progress".data)⟩)
        else
          ({ g with otpSending := true }, ⟨rest, c.result⟩)
    | .provider :: rest =>
        ({ g with providerCalls := g.providerCalls + 1 }, ⟨rest, c.result⟩)
    | .release :: rest =>
        ({ g with otpSending := false },
         ⟨rest, if rest.isEmpty then some .resolved else none⟩)

/-- Run two concurrent `sendOTP` invocations under a schedule: `true`
steps the first call, `false` steps the second. -/
def runTwoCalls (g : OtpGlobal) (c1 c2 : OtpCall) :
    List Bool → OtpGlobal × OtpCall × OtpCall
  | [] => (g, c1, c2)
  | true :: s =>
      let p := stepSendCall g c1
      runTwoCalls p.1 p.2 c2 s
  | false :: s =>
      let p := stepSendCall g c2
      runTwoCalls p.1 c1 p.2 s

/-- The schedule in which the second invocation starts after the first
has run `k` of its segments and before the first has resolved; the first
then runs to completion. -/
def twoCallSchedule (k : Nat) : List Bool :=
  List.replicate k true ++ [false] ++ List.replicate (3 - k) true

/-! ## User profiles and the verifyOTP reconciliation

`UserProfile` is the interface at `AuthContext.tsx` lines 20-28; the
profile store is the Firestore `users` collection, one document per
principal id. `verifyOTPReconcile` is the success path of `verifyOTP`
(lines 412-448), after `confirmationResult.confirm(otp)` has resolved.
`serverConfirmApply` is the profile write performed inside the
server-dispatch `confirm` closure that `sendOTP` builds when the native
plugin is missing (lines 315-330). -/

/-- The persisted `UserProfile` record. -/
structure UserProfile where
  fullName : JStr
  email : JStr
  phoneNumber : Option JStr
  phoneVerified : Option Bool
  createdAt : JStr
  role : Option JStr
  referralCode : Option JStr
deriving DecidableEq

/-- A Firebase `User` as consumed by the auth code. -/
structure FbUser where
  uid : JStr
  phoneNumber : Option JStr
  displayName : Option JStr
  email : Option JStr
  isAnonymous : Bool
deriving DecidableEq

/-- The `users` collection: one optional document per principal id. -/
def ProfileStore := JStr → Option UserProfile

/-- Write (or delete, with `none`) the document at key `k`. -/
def storeSet (st : ProfileStore) (k : JStr) (v : Option UserProfile) : ProfileStore :=
  fun q => if q = k then v else st q

/-- Success path of `verifyOTP` (`AuthContext.tsx` lines 417-448): with
the Firebase user from the confirm result (or `auth.currentUser`), read
the profile document; if it exists, update `phoneVerified` and
`phoneNumber` (existing number, else the user's number, else empty); if
absent, create a fresh profile marked verified. `now` stands for
`new Date().toISOString()`. -/
def verifyOTPReconcile (store : ProfileStore) (firebaseUser : Option FbUser)
    (now : JStr) : ProfileStore :=
  match firebaseUser with
  | none => store
  | some u =>
      let phoneNumberToUse := jsOrStr u.phoneNumber []
      match store u.uid with
      | some profileData =>
          storeSet store u.uid (some { profileData with
            phoneVerified := some true,
            phoneNumber := some (jsOrStr profileData.phoneNumber phoneNumberToUse) })
      | none =>
          storeSet store u.uid (some {
            fullName := jsOrStr u.displayName "User".data,
            email := jsOrStr u.email [],
            phoneNumber := some phoneNumberToUse,
            phoneVerified := some true,
            createdAt := now,
            role := some "resident".data,
            referralCode := none })

/-- The profile write inside the server-dispatch `confirm` closure
(`AuthContext.tsx` lines 322-326): when a Firebase user is signed in,
`updateDoc` sets `phoneVerified: true` and `phoneNumber: formattedPhone`
on that user's document (the verified target number, unconditionally).
With no signed-in user, or no document to update, no write happens. -/
def serverConfirmApply (store : ProfileStore) (currentUser : Option FbUser)
    (formattedPhone : JStr) : ProfileStore :=
  match currentUser with
  | none => store
  | some u =>
      match store u.uid with
      | some p => storeSet store u.uid (some { p with
          phoneVerified := some true, phoneNumber := some formattedPhone })
      | none => store

/-- The full server-dispatch verification path: the `confirm` closure
first applies its own profile write and yields
`auth.currentUser || \x7b phoneNumber: formattedPhone \x7d` as the result
user, then `verifyOTP` continues with its reconciliation. When no user is
signed in, the stub result user has no uid, so no further valid document
write occurs. -/
def serverDispatchVerify (store : ProfileStore) (currentUser : Option FbUser)
    (formattedPhone : JStr) (now : JStr) : ProfileStore :=
  let store1 := serverConfirmApply store currentUser formattedPhone
  match currentUser with
  | some u => verifyOTPReconcile store1 (some u) now
  | none => store1

/-! ## Auth facade signIn and the page-level handleSignIn

`signIn` is `AuthContext.tsx` lines 159-170; `handleSignIn` is
`src/pages/Auth.tsx` lines 126-179. The session is the signed-in
Firebase user (`none` = signed out). -/

/-- Result of the facade `signIn`: the post-call session and the value
it returns to its caller (the profile document, or `null`). -/
structure SignInResult where
  session : Option FbUser
  returned : Option UserProfile
deriving DecidableEq

/-- Facade `signIn`: authenticate with email/password (`authOutcome` is
the identity provider's answer; `none` means the password step threw),
then read and return the profile document. It neither signs the user
back out nor inspects the phone number. -/
def facadeSignIn (store : ProfileStore) (authOutcome : Option FbUser) :
    Except JStr SignInResult :=
  match authOutcome with
  | none => .error "auth/invalid-credential".data
  | some u => .ok ⟨some u, store u.uid⟩

/-- The user-visible outcome of `handleSignIn`. -/
inductive SignInOutcome
  | signInFailed (msg : JStr)
  | phoneRequired
  | otpSendFailed (msg : JStr)
  | otpDialogShown (phone : JStr)
deriving DecidableEq

/-- Function `handleSignIn` from `Auth.tsx`: call the facade `signIn`; if the
returned profile has no phone number (absent profile, absent field, or
empty string), log the principal back out and show the
phone-number-required error; otherwise send the OTP, logging out again
if that send fails. Returns the final session and the outcome. -/
def handleSignIn (store : ProfileStore) (authOutcome : Option FbUser)
    (otpSend : JStr → Except JStr Unit) : Option FbUser × SignInOutcome :=
  match facadeSignIn store authOutcome with
  | .error m => (none, .signInFailed m)
  | .ok r =>
      let phoneOpt := match r.returned with
        | some p => p.phoneNumber
        | none => none
      match phoneOpt with
      | none => (none, .phoneRequired)
      | some s =>
          if s = [] then (none, .phoneRequired)
          else
            let formatted := if startsWithPlus s then s else formatToE164 s
            match otpSend formatted with
            | .ok _ => (r.session, .otpDialogShown formatted)
            | .error m => (none, .otpSendFailed m)

/-- The stored phone number a signed-in principal has on record, under
the falsy-coalescing view `handleSignIn` takes of it
(`userProfile?.phoneNumber` — empty when the profile is missing, the
field is absent, or the field is the empty string). -/
def storedPhone (store : ProfileStore) (uid : JStr) : JStr :=
  jsOrStr ((store uid).bind UserProfile.phoneNumber) []

/-! ## deleteAccount

`deleteAccount` is `AuthContext.tsx` lines 185-202: delete the profile
document (non-anonymous users), then delete the identity; one `catch`
wraps both awaits, mapping `auth/requires-recent-login` to a distinct
message and rethrowing anything else. -/

/-- A thrown JavaScript error as inspected by the auth code: an optional
`code` property and a message. -/
structure JsError where
  code : Option JStr
  message : JStr
deriving DecidableEq

/-- Outcome of a `deleteAccount` call: what the promise did, and which
of the two deletions actually happened. -/
structure DeleteOutcome where
  result : Except JStr Unit
  docDeleted : Bool
  identityDeleted : Bool
deriving DecidableEq

/-- The `catch` block of `deleteAccount`: `auth/requires-recent-login`
becomes the distinct re-authentication message; other errors rethrow. -/
def mapDeleteError (e : JsError) : JStr :=
  if e.code = some "auth/requires-recent-login".data then
    "For security reasons, please re-authenticate before deleting your account.".data
  else e.message

/-- Function `deleteAccount` from `AuthContext.tsx`: fail when nobody is signed
in; for non-anonymous users first `await deleteDoc` (outcome `docDel`) —
a rejection there propagates to the shared `catch`, so `deleteUser` is
never reached; then `await deleteUser` (outcome `idDel`), whose
rejection is mapped by the same `catch`. -/
def deleteAccount (user : Option FbUser) (docDel : Except JsError Unit)
    (idDel : Except JsError Unit) : DeleteOutcome :=
  match user with
  | none => ⟨.error "No user logged in".data, false, false⟩
  | some u =>
      if u.isAnonymous then
        match idDel with
        | .ok _ => ⟨.ok (), false, true⟩
        | .error e => ⟨.error (mapDeleteError e), false, false⟩
      else
        match docDel with
        | .error e => ⟨.error (mapDeleteError e), false, false⟩
        | .ok _ =>
            match idDel with
            | .ok _ => ⟨.ok (), true, true⟩
            | .error e => ⟨.error (mapDeleteError e), true, false⟩

/-! ## Supabase edge functions: send-otp and verify-otp

`generateOTP` and the `send-otp` handler are
`supabase/functions/send-otp/index.ts`; the `verify-otp` handler is
`supabase/functions/verify-otp/index.ts`. The `otp_verifications` table
is declared `UNIQUE (phone_number)` in the migration, and `send-otp`
upserts with `onConflict: 'phone_number'`, so the table is a partial map
keyed by phone number. Timestamps are in milliseconds. -/

/-- Function `generateOTP` as a number: `Math.floor(100000 + r * 900000)` where
`r` is the value produced by `Math.random()`, in `[0, 1)`. Exact
rational arithmetic stands in for the JS float computation. -/
def generateOTPNat (r : ℚ) : Nat :=
  (⌊(100000 : ℚ) + r * 900000⌋).toNat

/-- Decimal rendering of a positive integer (JS `Number.prototype.toString`),
most significant digit first. -/
def natToString (n : Nat) : JStr :=
  (Nat.digits 10 n).reverse.map Nat.digitChar

/-- Function `generateOTP` from `send-otp/index.ts`:
`Math.floor(100000 + Math.random() * 900000).toString()`. -/
def generateOTP (r : ℚ) : JStr := natToString (generateOTPNat r)

/-- One row of the `otp_verifications` table (for a given phone number). -/
structure OtpRecord where
  otp : JStr
  expiresAt : Nat
  createdAt : Nat
deriving DecidableEq

/-- The `otp_verifications` table: at most one row per phone number,
by the UNIQUE constraint the upsert relies on. -/
def OtpDb := JStr → Option OtpRecord

/-- Upsert (`onConflict: 'phone_number'`) or delete the row for a number. -/
def dbSet (db : OtpDb) (k : JStr) (v : Option OtpRecord) : OtpDb :=
  fun q => if q = k then v else db q

/-- Responses of the `send-otp` handler. -/
inductive SendResp
  | missingPhone
  | ok
deriving DecidableEq

/-- The `send-otp` handler: require a phone number, format it, generate
an OTP, and upsert the row with `expires_at = now + 10 * 60 * 1000` and
`created_at = now`. (A database error is logged and the handler
continues; the SMS dispatch is a log statement.) -/
def sendOtpServe (db : OtpDb) (now : Nat) (r : ℚ) (phoneNumber : JStr) :
    SendResp × OtpDb :=
  if phoneNumber = [] then (.missingPhone, db)
  else
    let formattedPhone := ensurePlus phoneNumber
    let otp := generateOTP r
    let expiresAt := now + 10 * 60 * 1000
    (.ok, dbSet db formattedPhone (some ⟨otp, expiresAt, now⟩))

/-- Responses of the `verify-otp` handler. -/
inductive VerifyResp
  | missingFields
  | notFound
  | expired
  | wrongCode
  | verified (phoneNumber : JStr)
deriving DecidableEq

/-- The `verify-otp` handler: require both fields; format the number;
look up the row; if `now` is strictly past `expires_at`, delete the row
and report expiry; on a code mismatch report `Invalid OTP code` and
leave the row in place; on a match delete the row (one-time use) and
report success. -/
def verifyOtpServe (db : OtpDb) (now : Nat) (phoneNumber otp : JStr) :
    VerifyResp × OtpDb :=
  if phoneNumber = [] ∨ otp = [] then (.missingFields, db)
  else
    let formattedPhone := ensurePlus phoneNumber
    match db formattedPhone with
    | none => (.notFound, db)
    | some data =>
        if data.expiresAt < now then
          (.expired, dbSet db formattedPhone none)
        else if data.otp ≠ otp then (.wrongCode, db)
        else (.verified formattedPhone, dbSet db formattedPhone none)

/-- Error mapping of the client `verifyOTP` `catch` block
(`AuthContext.tsx` lines 450-458). -/
def mapVerifyOTPError (e : JsError) : JStr :=
  if e.code = some "auth/invalid-verification-code".data
      || hasSub "Invalid code".data e.message then
    "Invalid OTP code. Please try again.".data
  else if e.code = some "auth/code-expired".data then
    "OTP code has expired. Please request a new one.".data
  else if e.code = some "auth/session-expired".data then
    "Session expired. Please start the verification process again.".data
  else e.message

/-! ## PhoneOTPAuth sendOtp: validation before any provider call

`sendOtp` is `src/components/PhoneOTPAuth.tsx` lines 91-145 and
`mapErrorMessage` lines 28-39. The provider interaction (the plugin
probe and the start/sign-in calls) is counted so a spy provider's
invocation count can be stated. -/

/-- Function `mapErrorMessage` from `PhoneOTPAuth.tsx`: map provider error codes
or messages (lower-cased) to user-facing messages by substring match. -/
def mapErrorMessage (e : JsError) : JStr :=
  let key := toLowerStr (match e.code with | some c => c | none => e.message)
  if hasSub "too-many-requests".data key then
    "Too many requests. Try again later.".data
  else if hasSub "invalid-code".data key || hasSub "invalid-verification".data key
      || hasSub "wrong-code".data key then
    "The code you entered is invalid.".data
  else if hasSub "invalid-phone".data key then
    "Invalid phone number. Use E.164 format (e.g. +15551234567).".data
  else if hasSub "quota".data key then
    "SMS quota exceeded. Try again later.".data
  else if hasSub "network".data key || hasSub "timeout".data key then
    "Network error. Check your connection and retry.".data
  else e.message

/-- User-visible result of `sendOtp` in `PhoneOTPAuth.tsx`. -/
inductive SendOtpResult
  | needPhone
  | needE164
  | sendFailed (msg : JStr)
  | sent (verificationId : JStr)
deriving DecidableEq

/-- Function `sendOtp` from `PhoneOTPAuth.tsx`, paired with the number of calls
made into the native-plugin provider: normalize; reject empty input;
reject when the normalized number fails `isE164` — both before any
provider interaction; then probe the plugin (first provider call) and
start verification (second), mapping failures through `mapErrorMessage`.
`startOutcome` is the provider's answer to the start/sign-in call. -/
def sendOtp (defaultCountryCode phone : JStr) (pluginAvailable : Bool)
    (startOutcome : Except JsError JStr) : SendOtpResult × Nat :=
  let normalized := normalizePhone defaultCountryCode phone
  if normalized = [] then (.needPhone, 0)
  else if !isE164 normalized then (.needE164, 0)
  else if !pluginAvailable then
    (.sendFailed (mapErrorMessage
      ⟨none, "Native auth plugin is not available on this platform.".data⟩), 1)
  else
    match startOutcome with
    | .ok vId => (.sent vId, 2)
    | .error e => (.sendFailed (mapErrorMessage e), 2)

/-! ## Helper lemmas -/

theorem storeSet_same (st : ProfileStore) (k : JStr) (v : Option UserProfile) :
    storeSet st k v k = v := by
  simp [storeSet]

theorem dbSet_same (db : OtpDb) (k : JStr) (v : Option OtpRecord) :
    dbSet db k v k = v := by
  simp [dbSet]

/-! ## Claim C8: phone-number normalization -/

/-- C8: with default country code `+91`, normalization maps
`"9876543210"` to `"+919876543210"` and leaves `"+447911123456"`
unchanged; generally, inputs without a leading `+` have non-digits
stripped and the country code prepended, and well-formed inputs that
already start with `+` are returned as-is. Both normalizers in the
source (`formatToE164` and `normalizePhone`) are covered. -/
theorem C8_normalization (s t : JStr)
    (hs : startsWithPlus s = true) (hstrim : jsTrim s = s)
    (htail : (s.drop 1).all Char.isDigit = true)
    (ht : startsWithPlus t = false) (htne : t ≠ []) (httrim : jsTrim t = t) :
    normalizePhone "+91".data "9876543210".data = "+919876543210".data ∧
    formatToE164 "9876543210".data = "+919876543210".data ∧
    normalizePhone "+91".data "+447911123456".data = "+447911123456".data ∧
    formatToE164 "+447911123456".data = "+447911123456".data ∧
    normalizePhone "+91".data s = s ∧
    formatToE164 s = s ∧
    normalizePhone "+91".data t = "+91".data ++ stripNonDigits t ∧
    formatToE164 t = '+' :: '9' :: '1' :: stripNonDigits t := by
  have hsne : s ≠ [] := by
    intro h
    rw [h] at hs
    simp [startsWithPlus] at hs
  refine ⟨by decide, by decide, by decide, by decide, ?_, ?_, ?_, ?_⟩
  · simp [normalizePhone, hstrim, hs, hsne]
  · obtain ⟨c, cs, rfl⟩ : ∃ c cs, s = c :: cs := by
      cases s with
      | nil => exact absurd rfl hsne
      | cons c cs => exact ⟨c, cs, rfl⟩
    have hc : c = '+' := by simpa [startsWithPlus] using hs
    subst hc
    have hall : cs.all Char.isDigit = true := by simpa using htail
    have hcs : stripNonDigits ('+' :: cs) = cs := by
      have hplusdig : Char.isDigit '+' = false := by decide
      simp only [stripNonDigits, List.filter_cons, hplusdig]
      exact List.filter_eq_self.mpr (List.all_eq_true.mp hall)
    simp [formatToE164, startsWithPlus, hcs]
  · simp [normalizePhone, httrim, ht, htne]
  · simp [formatToE164, ht, htne]

/-- Witness for C8 at `s = "+447911123456"` and `t = "9876543210"`. -/
theorem C8_normalization_witness :
    startsWithPlus "+447911123456".data = true ∧
    jsTrim "+447911123456".data = "+447911123456".data ∧
    ("+447911123456".data.drop 1).all Char.isDigit = true ∧
    startsWithPlus "9876543210".data = false ∧
    "9876543210".data ≠ [] ∧
    jsTrim "9876543210".data = "9876543210".data ∧
    normalizePhone "+91".data "+447911123456".data = "+447911123456".data ∧
    normalizePhone "+91".data "9876543210".data
      = "+91".data ++ stripNonDigits "9876543210".data :=
  ⟨by decide, by decide, by decide, by decide, by decide, by decide,
   (C8_normalization "+447911123456".data "9876543210".data (by decide)
      (by decide) (by decide) (by decide) (by decide) (by decide)).2.2.1,
   (C8_normalization "+447911123456".data "9876543210".data (by decide)
      (by decide) (by decide) (by decide) (by decide) (by decide)).2.2.2.2.2.2.1⟩

/-! ## Claim C7: invalid numbers are rejected before any provider call -/

/-- C7 counterexample: the input `"abc"`, which the claim offers as an
input whose normalized form fails E.164 shape validation, in fact
normalizes (with default country code `+91`) to `"+91"`, which PASSES
the `isE164` shape test, so `sendOtp` proceeds to the provider for it:
the provider is invoked (twice: probe and start) instead of zero
times. -/
theorem C7_counterexample :
    normalizePhone "+91".data "abc".data = "+91".data ∧
    isE164 "+91".data = true ∧
    (sendOtp "+91".data "abc".data true (.ok "verif-1".data)).2 = 2 ∧
    (sendOtp "+91".data "abc".data true (.ok "verif-1".data)).1
      = .sent "verif-1".data := by
  decide

/-- C7 amended: for every input whose normalized form fails the E.164
shape validation (for example `"+1"` — though not `"abc"`, which
normalizes to the passing `"+91"`), `sendOtp` rejects before any
provider call occurs (zero provider invocations), with the
E.164-format (InvalidPhoneNumber) error when the normalized form is
non-empty and the enter-a-phone-number error when it is empty. -/
theorem C7_invalid_rejected_before_provider (cc phone : JStr) (avail : Bool)
    (so : Except JsError JStr)
    (h : isE164 (normalizePhone cc phone) = false) :
    (sendOtp cc phone avail so).2 = 0 ∧
    (normalizePhone cc phone = [] → (sendOtp cc phone avail so).1 = .needPhone) ∧
    (normalizePhone cc phone ≠ [] → (sendOtp cc phone avail so).1 = .needE164) := by
  by_cases he : normalizePhone cc phone = [] <;>
    simp [sendOtp, he, h]

/-- Witness for C7 at the claim's other example `"+1"`. -/
theorem C7_invalid_rejected_before_provider_witness :
    isE164 (normalizePhone "+91".data "+1".data) = false ∧
    (sendOtp "+91".data "+1".data true (.ok "verif-1".data)).2 = 0 ∧
    (sendOtp "+91".data "+1".data true (.ok "verif-1".data)).1 = .needE164 :=
  ⟨by decide,
   (C7_invalid_rejected_before_provider "+91".data "+1".data true
      (.ok "verif-1".data) (by decide)).1,
   (C7_invalid_rejected_before_provider "+91".data "+1".data true
      (.ok "verif-1".data) (by decide)).2.2 (by decide)⟩

/-! ## Claim C1: single-flight guard on sendOTP -/

/-- C1: when a second `sendOTP` call is made at any point while the
first is unresolved (after `k = 1` or `k = 2` of the first call's
atomic segments), the second call rejects with the ConcurrentRequest
error `OTP request already in progress`, the first resolves, and exactly
one provider call is made across the two invocations; moreover the first
atomic segment of a fresh call from any unlocked state sets the lock
synchronously — before the first suspension point — without touching the
provider and without resolving. -/
theorem C1_single_flight (k : Nat) (g : OtpGlobal)
    (h1 : 1 ≤ k) (h2 : k ≤ 2) (hg : g.otpSending = false) :
    (runTwoCalls otpGlobal0 newSendCall newSendCall (twoCallSchedule k)).2.1.result
      = some .resolved ∧
    (runTwoCalls otpGlobal0 newSendCall newSendCall (twoCallSchedule k)).2.2.result
      = some (.rejected "OTP request already in progress".data) ∧
    (runTwoCalls otpGlobal0 newSendCall newSendCall (twoCallSchedule k)).1.providerCalls
      = 1 ∧
    (runTwoCalls otpGlobal0 newSendCall newSendCall (twoCallSchedule k)).1.otpSending
      = false ∧
    (stepSendCall g newSendCall).1.otpSending = true ∧
    (stepSendCall g newSendCall).1.providerCalls = g.providerCalls ∧
    (stepSendCall g newSendCall).2.result = none := by
  obtain ⟨gs, gc⟩ := g
  have hgs : gs = false := hg
  subst hgs
  have hk : k = 1 ∨ k = 2 := by omega
  rcases hk with rfl | rfl <;>
    exact ⟨by decide, by decide, by decide, by decide,
      by simp [stepSendCall, newSendCall, sendSegments],
      by simp [stepSendCall, newSendCall, sendSegments],
      by simp [stepSendCall, newSendCall, sendSegments]⟩

/-- Witness for C1 at `k = 1` (second call arrives right after the
first call's synchronous segment) and the initial global state. -/
theorem C1_single_flight_witness :
    (1 ≤ 1 ∧ 1 ≤ 2 ∧ otpGlobal0.otpSending = false) ∧
    (runTwoCalls otpGlobal0 newSendCall newSendCall (twoCallSchedule 1)).2.2.result
      = some (.rejected "OTP request already in progress".data) ∧
    (runTwoCalls otpGlobal0 newSendCall newSendCall (twoCallSchedule 1)).1.providerCalls
      = 1 :=
  ⟨⟨by decide, by decide, by decide⟩,
   (C1_single_flight 1 otpGlobal0 (by decide) (by decide) (by decide)).2.1,
   (C1_single_flight 1 otpGlobal0 (by decide) (by decide) (by decide)).2.2.1⟩

/-! ## Claim C3: provider selection -/

/-- C3: provider selection on send is `nativePlugin` when the runtime is
a native Android/iOS WebView and the plugin probe succeeds,
`serverDispatch` when the runtime is a native WebView but the probe
fails, and `interactiveWeb` otherwise; the interactive web (reCAPTCHA)
flow is selected only outside native WebViews, and
`getOrCreateRecaptchaVerifier` never creates a verifier inside one. -/
theorem C3_provider_selection (env : JsEnv) (avail hasDom : Bool) :
    (isRunningInNativeWebView env = true → avail = true →
      selectProvider env avail = .nativePlugin) ∧
    (isRunningInNativeWebView env = true → avail = false →
      selectProvider env avail = .serverDispatch) ∧
    (isRunningInNativeWebView env = false →
      selectProvider env avail = .interactiveWeb) ∧
    (selectProvider env avail = .interactiveWeb →
      isRunningInNativeWebView env = false) ∧
    (isRunningInNativeWebView env = true →
      getOrCreateRecaptchaVerifier false hasDom env ≠ .created) := by
  cases hnat : isRunningInNativeWebView env <;>
    cases avail <;> cases hasDom <;>
      simp [selectProvider, getOrCreateRecaptchaVerifier, hnat]

/-- Witness for C3: a Capacitor-native Android environment with the
plugin available selects the native plugin, and the reCAPTCHA verifier
is refused there. -/
theorem C3_provider_selection_witness :
    isRunningInNativeWebView ⟨true, "android".data, []⟩ = true ∧
    selectProvider ⟨true, "android".data, []⟩ true = .nativePlugin ∧
    getOrCreateRecaptchaVerifier false true ⟨true, "android".data, []⟩ ≠ .created :=
  ⟨by decide,
   (C3_provider_selection ⟨true, "android".data, []⟩ true true).1 (by decide) rfl,
   (C3_provider_selection ⟨true, "android".data, []⟩ true true).2.2.2.2 (by decide)⟩

/-! ## Claim C2: profile reconciliation after a successful confirm -/

/-- C2 counterexample: on the server-dispatch path, with a pre-existing
profile holding the non-empty number `+911111111111` and a confirm for
the verified number `+922222222222`, the stored profile ends with
`phoneNumber = "+922222222222"` — the verified number, not the
pre-existing one — because the server `confirm` closure overwrites the
document before `verifyOTP` reads it back. -/
theorem C2_counterexample :
    (serverDispatchVerify
        (storeSet (fun _ => none) "u1".data (some
          ⟨"Asha Rao".data, "asha@example.com".data,
           some "+911111111111".data, some false,
           "2024-01-01T00:00:00.000Z".data, some "resident".data, none⟩))
        (some ⟨"u1".data, none, none, none, false⟩)
        "+922222222222".data "2024-01-02T00:00:00.000Z".data
      "u1".data).map UserProfile.phoneNumber = some (some "+922222222222".data) ∧
    (serverDispatchVerify
        (storeSet (fun _ => none) "u1".data (some
          ⟨"Asha Rao".data, "asha@example.com".data,
           some "+911111111111".data, some false,
           "2024-01-01T00:00:00.000Z".data, some "resident".data, none⟩))
        (some ⟨"u1".data, none, none, none, false⟩)
        "+922222222222".data "2024-01-02T00:00:00.000Z".data
      "u1".data).map UserProfile.phoneVerified = some (some true) ∧
    some "+922222222222".data ≠ some "+911111111111".data := by
  decide

/-- C2 amended: after a successful confirm with a pre-existing profile,
the stored profile has `phoneVerified = true` on every path; on the
interactive-web and native-plugin paths the stored `phoneNumber` is the
pre-existing number when non-empty, else the verified (session user's)
number (the `jsOrStr` chain below); but on the server-dispatch path the
`confirm` closure has already overwritten the document, so the stored
number is always the verified formatted number `fp`. -/
theorem C2_profile_reconciliation (store : ProfileStore) (u : FbUser)
    (now : JStr) (p : UserProfile) (s fp : JStr)
    (hp : store u.uid = some p) (hs : p.phoneNumber = some s)
    (hsne : s ≠ []) (hfp : fp ≠ []) :
    verifyOTPReconcile store (some u) now u.uid
      = some { p with
               phoneVerified := some true
               phoneNumber := some (jsOrStr p.phoneNumber (jsOrStr u.phoneNumber [])) } ∧
    jsOrStr p.phoneNumber (jsOrStr u.phoneNumber []) = s ∧
    serverDispatchVerify store (some u) fp now u.uid
      = some { p with phoneVerified := some true, phoneNumber := some fp } := by
  refine ⟨?_, ?_, ?_⟩
  · simp [verifyOTPReconcile, hp, storeSet_same]
  · simp [jsOrStr, hs, hsne]
  · simp [serverDispatchVerify, serverConfirmApply, verifyOTPReconcile, hp,
      storeSet_same, storeSet, jsOrStr, hfp]

/-- Witness for C2 on a concrete store, principal and numbers. -/
theorem C2_profile_reconciliation_witness :
    (storeSet (fun _ => none) "u1".data (some
        ⟨"Asha Rao".data, "asha@example.com".data, some "+911111111111".data,
         some false, "2024-01-01T00:00:00.000Z".data, some "resident".data, none⟩)
      "u1".data = some
        ⟨"Asha Rao".data, "asha@example.com".data, some "+911111111111".data,
         some false, "2024-01-01T00:00:00.000Z".data, some "resident".data, none⟩) ∧
    jsOrStr (some "+911111111111".data)
        (jsOrStr (some "+919999999999".data) []) = "+911111111111".data :=
  ⟨by decide,
   (C2_profile_reconciliation
      (storeSet (fun _ => none) "u1".data (some
        ⟨"Asha Rao".data, "asha@example.com".data, some "+911111111111".data,
         some false, "2024-01-01T00:00:00.000Z".data, some "resident".data, none⟩))
      ⟨"u1".data, some "+919999999999".data, none, none, false⟩
      "2024-01-02T00:00:00.000Z".data
      ⟨"Asha Rao".data, "asha@example.com".data, some "+911111111111".data,
       some false, "2024-01-01T00:00:00.000Z".data, some "resident".data, none⟩
      "+911111111111".data "+922222222222".data
      (by decide) (by decide) (by decide) (by decide)).2.1⟩

/-! ## Claim C6: mandatory phone number on sign-in -/

/-- C6 counterexample: with a stored profile that has no phone number,
the auth facade's `signIn` does NOT sign the principal back out and does
NOT fail with a PhoneRequired error: it resolves successfully, returning
the profile, with the session still signed in. -/
theorem C6_counterexample :
    facadeSignIn
        (storeSet (fun _ => none) "u1".data (some
          ⟨"Asha Rao".data, "asha@example.com".data, none, none,
           "2024-01-01T00:00:00.000Z".data, some "resident".data, none⟩))
        (some ⟨"u1".data, none, none, none, false⟩)
      = .ok ⟨some ⟨"u1".data, none, none, none, false⟩,
             some ⟨"Asha Rao".data, "asha@example.com".data, none, none,
                   "2024-01-01T00:00:00.000Z".data, some "resident".data, none⟩⟩ := by
  decide

/-- C6 amended: the sign-out-and-PhoneRequired rule lives in the
page-level `handleSignIn` wrapper, not in the facade `signIn`: the
facade resolves normally even without a phone number on record, and
`handleSignIn` then signs the principal out and reports the
phone-required error; after `handleSignIn`, a principal only remains
signed in when the stored profile has a non-empty phone number. -/
theorem C6_phone_required_on_sign_in (store : ProfileStore) (u u2 : FbUser)
    (authOutcome : Option FbUser) (otpSend : JStr → Except JStr Unit)
    (hmiss : storedPhone store u.uid = []) :
    facadeSignIn store (some u) = .ok ⟨some u, store u.uid⟩ ∧
    handleSignIn store (some u) otpSend = (none, .phoneRequired) ∧
    ((handleSignIn store authOutcome otpSend).1 = some u2 →
      storedPhone store u2.uid ≠ []) := by
  refine ⟨rfl, ?_, ?_⟩
  · unfold storedPhone at hmiss
    cases hq : store u.uid with
    | none => simp [handleSignIn, facadeSignIn, hq]
    | some p =>
        rw [hq] at hmiss
        have hmiss2 : jsOrStr p.phoneNumber [] = [] := by
          simp only [Option.some_bind] at hmiss
          exact hmiss
        cases hpn : p.phoneNumber with
        | none => simp [handleSignIn, facadeSignIn, hq, hpn]
        | some s =>
            rw [hpn] at hmiss2
            by_cases hse : s = []
            · simp [handleSignIn, facadeSignIn, hq, hpn, hse]
            · simp [jsOrStr, hse] at hmiss2
  · intro hsess
    cases authOutcome with
    | none => simp [handleSignIn, facadeSignIn] at hsess
    | some u3 =>
        cases hq : store u3.uid with
        | none => simp [handleSignIn, facadeSignIn, hq] at hsess
        | some p =>
            cases hpn : p.phoneNumber with
            | none => simp [handleSignIn, facadeSignIn, hq, hpn] at hsess
            | some s =>
                by_cases hse : s = []
                · simp [handleSignIn, facadeSignIn, hq, hpn, hse] at hsess
                · cases hsend : otpSend (if startsWithPlus s then s
                      else formatToE164 s) with
                  | error m =>
                      simp [handleSignIn, facadeSignIn, hq, hpn, hse, hsend]
                        at hsess
                  | ok v =>
                      have hu : u3 = u2 := by
                        simpa [handleSignIn, facadeSignIn, hq, hpn, hse, hsend]
                          using hsess
                      subst hu
                      simp [storedPhone, hq, hpn, jsOrStr, hse]

/-- Witness for C6 on a concrete store whose profile lacks a phone
number. -/
theorem C6_phone_required_on_sign_in_witness :
    storedPhone
        (storeSet (fun _ => none) "u1".data (some
          ⟨"Asha Rao".data, "asha@example.com".data, none, none,
           "2024-01-01T00:00:00.000Z".data, some "resident".data, none⟩))
        "u1".data = [] ∧
    handleSignIn
        (storeSet (fun _ => none) "u1".data (some
          ⟨"Asha Rao".data, "asha@example.com".data, none, none,
           "2024-01-01T00:00:00.000Z".data, some "resident".data, none⟩))
        (some ⟨"u1".data, none, none, none, false⟩) (fun _ => .ok ())
      = (none, .phoneRequired) :=
  ⟨by decide,
   (C6_phone_required_on_sign_in
      (storeSet (fun _ => none) "u1".data (some
        ⟨"Asha Rao".data, "asha@example.com".data, none, none,
         "2024-01-01T00:00:00.000Z".data, some "resident".data, none⟩))
      ⟨"u1".data, none, none, none, false⟩
      ⟨"u1".data, none, none, none, false⟩
      none (fun _ => .ok ()) (by decide)).2.1⟩

/-! ## Claim C9: deleteAccount -/

/-- C9 counterexample: when deleting the profile document fails (for a
non-anonymous user), `deleteAccount` rethrows and the identity is NOT
deleted — the profile deletion is not best-effort; it blocks the
identity deletion. -/
theorem C9_counterexample :
    (deleteAccount (some ⟨"u1".data, none, none, none, false⟩)
        (.error ⟨some "permission-denied".data,
                 "Missing or insufficient permissions.".data⟩)
        (.ok ())).identityDeleted = false ∧
    (deleteAccount (some ⟨"u1".data, none, none, none, false⟩)
        (.error ⟨some "permission-denied".data,
                 "Missing or insufficient permissions.".data⟩)
        (.ok ())).result
      = .error "Missing or insufficient permissions.".data := by
  decide

/-- C9 amended: `deleteAccount` deletes the profile document first and
then the identity, but a failure of the profile deletion propagates and
blocks the identity deletion (it is not best-effort); when the identity
provider demands recent re-authentication, the distinct
re-authentication message is thrown rather than a generic failure; when
both steps succeed, both deletions happen. -/
theorem C9_delete_account (u : FbUser) (e eid : JsError)
    (hanon : u.isAnonymous = false)
    (hre : eid.code = some "auth/requires-recent-login".data) :
    (deleteAccount (some u) (.error e) (.ok ())).identityDeleted = false ∧
    (deleteAccount (some u) (.error e) (.ok ())).result
      = .error (mapDeleteError e) ∧
    (deleteAccount (some u) (.ok ()) (.error eid)).result
      = .error "For security reasons, please re-authenticate before deleting your account.".data ∧
    (deleteAccount (some u) (.ok ()) (.error eid)).docDeleted = true ∧
    (deleteAccount (some u) (.ok ()) (.ok ())).result = .ok () ∧
    (deleteAccount (some u) (.ok ()) (.ok ())).docDeleted = true ∧
    (deleteAccount (some u) (.ok ()) (.ok ())).identityDeleted = true := by
  simp [deleteAccount, mapDeleteError, hanon, hre]

/-- Witness for C9 on a concrete non-anonymous user and errors. -/
theorem C9_delete_account_witness :
    (⟨"u1".data, none, none, none, false⟩ : FbUser).isAnonymous = false ∧
    (deleteAccount (some ⟨"u1".data, none, none, none, false⟩) (.ok ())
        (.error ⟨some "auth/requires-recent-login".data, "reauth".data⟩)).result
      = .error "For security reasons, please re-authenticate before deleting your account.".data :=
  ⟨by decide,
   (C9_delete_account ⟨"u1".data, none, none, none, false⟩
      ⟨some "permission-denied".data, "Missing or insufficient permissions.".data⟩
      ⟨some "auth/requires-recent-login".data, "reauth".data⟩
      (by decide) (by decide)).2.2.1⟩

/-! ## Claims C4 and C5: the server OTP store -/

theorem generateOTPNat_bounds (r : ℚ) (h0 : 0 ≤ r) (h1 : r < 1) :
    100000 ≤ generateOTPNat r ∧ generateOTPNat r ≤ 999999 := by
  unfold generateOTPNat
  have hfl : (100000 : ℤ) ≤ ⌊(100000 : ℚ) + r * 900000⌋ :=
    Int.le_floor.mpr (by push_cast; nlinarith)
  have hfu : ⌊(100000 : ℚ) + r * 900000⌋ < (1000000 : ℤ) :=
    Int.floor_lt.mpr (by push_cast; nlinarith)
  omega

theorem generateOTP_ne_nil (r : ℚ) (h0 : 0 ≤ r) (h1 : r < 1) :
    generateOTP r ≠ [] := by
  have hb := (generateOTPNat_bounds r h0 h1).1
  intro h
  rw [generateOTP, natToString, List.map_eq_nil_iff, List.reverse_eq_nil_iff,
    Nat.digits_eq_nil_iff_eq_zero] at h
  omega

/-- C4: a `confirm` with a wrong code returns the invalid-code error and
leaves the server's pending OTP record untouched, so a later `confirm`
with the correct code on the same record still succeeds (and consumes
it); and in general the store changes only when the verify succeeds or
the record is found expired; the client maps the wrong-code failure to
the invalid-code message. -/
theorem C4_wrong_code_keeps_record (db db0 : OtpDb) (now now2 n : Nat)
    (phone code q c msg : JStr) (data : OtpRecord)
    (hp : phone ≠ []) (hc : code ≠ [])
    (hrec : db (ensurePlus phone) = some data)
    (hwrong : data.otp ≠ code) (hotpne : data.otp ≠ [])
    (hnexp : ¬ data.expiresAt < now) (hnexp2 : ¬ data.expiresAt < now2) :
    (verifyOtpServe db now phone code).1 = .wrongCode ∧
    (verifyOtpServe db now phone code).2 = db ∧
    (verifyOtpServe db now2 phone data.otp).1 = .verified (ensurePlus phone) ∧
    (verifyOtpServe db now2 phone data.otp).2 (ensurePlus phone) = none ∧
    ((verifyOtpServe db0 n q c).2 = db0 ∨
      (verifyOtpServe db0 n q c).1 = .expired ∨
      (verifyOtpServe db0 n q c).1 = .verified (ensurePlus q)) ∧
    mapVerifyOTPError ⟨some "auth/invalid-verification-code".data, msg⟩
      = "Invalid OTP code. Please try again.".data := by
  refine ⟨?_, ?_, ?_, ?_, ?_, ?_⟩
  · simp [verifyOtpServe, hp, hc, hrec, hnexp, hwrong]
  · simp [verifyOtpServe, hp, hc, hrec, hnexp, hwrong]
  · simp [verifyOtpServe, hp, hotpne, hrec, hnexp2]
  · simp [verifyOtpServe, hp, hotpne, hrec, hnexp2, dbSet_same]
  · unfold verifyOtpServe
    by_cases h1 : q = [] ∨ c = []
    · simp [h1]
    · simp only [h1, if_false]
      cases hdb : db0 (ensurePlus q) with
      | none => simp
      | some rec0 =>
          by_cases h2 : rec0.expiresAt < n
          · simp [h2]
          · by_cases h3 : rec0.otp ≠ c
            · simp [h2, h3]
            · simp [h2, h3]
  · simp [mapVerifyOTPError]

/-- Witness for C4 on a concrete store holding code `123456` for
`+15551234567`, first confirmed with the wrong code `111111`. -/
theorem C4_wrong_code_keeps_record_witness :
    (dbSet (fun _ => none) "+15551234567".data (some ⟨"123456".data, 600000, 0⟩))
        (ensurePlus "+15551234567".data) = some ⟨"123456".data, 600000, 0⟩ ∧
    (verifyOtpServe
        (dbSet (fun _ => none) "+15551234567".data (some ⟨"123456".data, 600000, 0⟩))
        1000 "+15551234567".data "111111".data).1 = .wrongCode ∧
    (verifyOtpServe
        (dbSet (fun _ => none) "+15551234567".data (some ⟨"123456".data, 600000, 0⟩))
        2000 "+15551234567".data "123456".data).1
      = .verified (ensurePlus "+15551234567".data) :=
  ⟨by decide,
   (C4_wrong_code_keeps_record
      (dbSet (fun _ => none) "+15551234567".data (some ⟨"123456".data, 600000, 0⟩))
      (fun _ => none) 1000 2000 0 "+15551234567".data "111111".data
      "+10000000000".data "000000".data "msg".data ⟨"123456".data, 600000, 0⟩
      (by decide) (by decide) (by decide) (by decide) (by decide)
      (by decide) (by decide)).1,
   (C4_wrong_code_keeps_record
      (dbSet (fun _ => none) "+15551234567".data (some ⟨"123456".data, 600000, 0⟩))
      (fun _ => none) 1000 2000 0 "+15551234567".data "111111".data
      "+10000000000".data "000000".data "msg".data ⟨"123456".data, 600000, 0⟩
      (by decide) (by decide) (by decide) (by decide) (by decide)
      (by decide) (by decide)).2.2.1⟩

/-- C5: the server keeps at most one pending OTP record per phone number
(the store is keyed by the number and a new send overwrites any prior
record, leaving every other number's record alone), each record expires
10 minutes (600000 ms) after its creation time, a successful verify
deletes the record immediately, and a verify that finds the record
expired deletes it too. -/
theorem C5_server_otp_store (db : OtpDb) (now now2 now3 : Nat) (r : ℚ)
    (phone c q : JStr)
    (hp : phone ≠ []) (h0 : 0 ≤ r) (h1 : r < 1)
    (hq : q ≠ ensurePlus phone) (hc : c ≠ [])
    (hnow2 : ¬ now + 10 * 60 * 1000 < now2)
    (hnow3 : now + 10 * 60 * 1000 < now3) :
    (sendOtpServe db now r phone).1 = .ok ∧
    (sendOtpServe db now r phone).2 (ensurePlus phone)
      = some ⟨generateOTP r, now + 10 * 60 * 1000, now⟩ ∧
    (sendOtpServe db now r phone).2 q = db q ∧
    (verifyOtpServe (sendOtpServe db now r phone).2 now2 phone (generateOTP r)).1
      = .verified (ensurePlus phone) ∧
    (verifyOtpServe (sendOtpServe db now r phone).2 now2 phone (generateOTP r)).2
      (ensurePlus phone) = none ∧
    (verifyOtpServe (sendOtpServe db now r phone).2 now3 phone c).1 = .expired ∧
    (verifyOtpServe (sendOtpServe db now r phone).2 now3 phone c).2
      (ensurePlus phone) = none := by
  have hotpne := generateOTP_ne_nil r h0 h1
  refine ⟨?_, ?_, ?_, ?_, ?_, ?_, ?_⟩
  · simp [sendOtpServe, hp]
  · simp [sendOtpServe, hp, dbSet_same]
  · simp [sendOtpServe, hp, dbSet, hq]
  · simp [verifyOtpServe, sendOtpServe, hp, hotpne, dbSet_same, hnow2]
  · simp [verifyOtpServe, sendOtpServe, hp, hotpne, dbSet_same, hnow2]
  · simp [verifyOtpServe, sendOtpServe, hp, hc, dbSet_same, hnow3]
  · simp [verifyOtpServe, sendOtpServe, hp, hc, dbSet_same, hnow3]

/-- Witness for C5 with `r = 1/2` (code `550000`), sent at time 0,
verified at time 0, and found expired at time 600001. -/
theorem C5_server_otp_store_witness :
    (0 : ℚ) ≤ 1 / 2 ∧ (1 / 2 : ℚ) < 1 ∧
    (sendOtpServe (fun _ => none) 0 (1 / 2) "+15551234567".data).2
        (ensurePlus "+15551234567".data)
      = some ⟨generateOTP (1 / 2), 0 + 10 * 60 * 1000, 0⟩ ∧
    (verifyOtpServe (sendOtpServe (fun _ => none) 0 (1 / 2) "+15551234567".data).2
        600001 "+15551234567".data "000000".data).1 = .expired :=
  ⟨by norm_num, by norm_num,
   (C5_server_otp_store (fun _ => none) 0 0 600001 (1 / 2) "+15551234567".data
      "000000".data "+10000000000".data (by decide) (by norm_num) (by norm_num)
      (by decide) (by decide) (by norm_num) (by norm_num)).2.1,
   (C5_server_otp_store (fun _ => none) 0 0 600001 (1 / 2) "+15551234567".data
      "000000".data "+10000000000".data (by decide) (by norm_num) (by norm_num)
      (by decide) (by decide) (by norm_num) (by norm_num)).2.2.2.2.2.1⟩

/-! ## Claim C10: generateOTP -/

theorem digitChar_isDigit (d : Nat) (hd : d < 10) :
    (Nat.digitChar d).isDigit = true := by
  interval_cases d <;> decide

theorem digitChar_ne_zero_char (d : Nat) (hd : d < 10) (hz : d ≠ 0) :
    Nat.digitChar d ≠ '0' := by
  interval_cases d <;> simp_all <;> decide

/-- C10: for every random-source value `r` in `[0, 1)`, `generateOTP`
produces an integer between 100000 and 999999 inclusive, rendered as a
string of exactly 6 decimal digits whose first digit is not zero. -/
theorem C10_generate_otp (r : ℚ) (h0 : 0 ≤ r) (h1 : r < 1) :
    100000 ≤ generateOTPNat r ∧ generateOTPNat r ≤ 999999 ∧
    (generateOTP r).length = 6 ∧
    (generateOTP r).all Char.isDigit = true ∧
    (generateOTP r).head? ≠ some '0' := by
  obtain ⟨hlo, hhi⟩ := generateOTPNat_bounds r h0 h1
  have hne : generateOTPNat r ≠ 0 := by omega
  have hlog : Nat.log 10 (generateOTPNat r) = 5 :=
    Nat.log_eq_of_pow_le_of_lt_pow (by norm_num; omega) (by norm_num; omega)
  have hdne : Nat.digits 10 (generateOTPNat r) ≠ [] :=
    Nat.digits_ne_nil_iff_ne_zero.mpr hne
  refine ⟨hlo, hhi, ?_, ?_, ?_⟩
  · show ((Nat.digits 10 (generateOTPNat r)).reverse.map Nat.digitChar).length = 6
    rw [List.length_map, List.length_reverse,
      Nat.digits_len 10 _ (by norm_num) hne, hlog]
  · rw [List.all_eq_true]
    intro c hc
    simp only [generateOTP, natToString, List.mem_map, List.mem_reverse] at hc
    obtain ⟨d, hd, rfl⟩ := hc
    exact digitChar_isDigit d (Nat.digits_lt_base (by norm_num) hd)
  · show ((Nat.digits 10 (generateOTPNat r)).reverse.map Nat.digitChar).head?
      ≠ some '0'
    rw [List.head?_map, List.head?_reverse,
      List.getLast?_eq_getLast _ hdne]
    intro hcontra
    have hdz : (Nat.digits 10 (generateOTPNat r)).getLast hdne = 0 ∨
        Nat.digitChar ((Nat.digits 10 (generateOTPNat r)).getLast hdne) = '0' := by
      right
      simpa using hcontra
    rcases hdz with hdz | hdz
    · exact Nat.getLast_digit_ne_zero 10 hne hdz
    · have hmem := List.getLast_mem hdne
      have hlt : (Nat.digits 10 (generateOTPNat r)).getLast hdne < 10 :=
        Nat.digits_lt_base (by norm_num) hmem
      have hz := Nat.getLast_digit_ne_zero 10 hne
      exact digitChar_ne_zero_char _ hlt hz hdz

/-- Witness for C10 at `r = 1/2`, giving the code `550000`. -/
theorem C10_generate_otp_witness :
    (0 : ℚ) ≤ 1 / 2 ∧ (1 / 2 : ℚ) < 1 ∧
    (100000 ≤ generateOTPNat (1 / 2) ∧ generateOTPNat (1 / 2) ≤ 999999 ∧
      (generateOTP (1 / 2)).length = 6 ∧
      (generateOTP (1 / 2)).all Char.isDigit = true ∧
      (generateOTP (1 / 2)).head? ≠ some '0') :=
  ⟨by norm_num, by norm_num, C10_generate_otp (1 / 2) (by norm_num) (by norm_num)⟩

end OwnersHub
